import Mathlib

/-
Verification of the DocuLex-ML contract-automation pipeline (src/autocon.py).

The program is a thin pipeline over an LLM chat-completion endpoint plus a
few file-format wrappers.  We embed it shallowly:

  * the completion backend is a function from a request (model identifier and
    ordered role/content messages) to `Option String`; `none` models the call
    raising an exception, `some raw` models a successful call whose first
    choice has message content `raw`;
  * the template directory is `Option (List (String × String))`: `none` for an
    absent directory, `some files` for an existing directory listed as
    (filename, file content) pairs;
  * the in-memory template cache (a Python dict) is an association list with
    Python dict-assignment semantics (replace in place, else append);
  * document output (docx blocks, pdf canvas operations) is recorded as
    explicit operation lists so theorems can speak about what is drawn.

Python string operations `s.endswith(".txt")` and `s[:-4]` act on characters,
so they are embedded at the character-list level of `String`.
-/

/-- Python `s.strip()`: remove leading and trailing whitespace, at the
character level. -/
def py_strip (s : String) : String :=
  ⟨((s.data.dropWhile Char.isWhitespace).reverse.dropWhile Char.isWhitespace).reverse⟩

/-- Python `s.lower()`: lower-case every character. -/
def py_lower (s : String) : String :=
  ⟨s.data.map Char.toLower⟩

/-- Helper for `py_split_nl`: accumulate the current line (reversed) while
scanning the remaining characters. -/
def splitLinesAux : List Char → List Char → List String
  | [], acc => [⟨acc.reverse⟩]
  | c :: cs, acc =>
    if c = '\n' then ⟨acc.reverse⟩ :: splitLinesAux cs []
    else splitLinesAux cs (c :: acc)

/-- Python `s.split('\n')`: split on every newline; the empty string yields
one empty field, and a trailing newline yields a trailing empty field. -/
def py_split_nl (s : String) : List String := splitLinesAux s.data []

/-- Python `sep.join(parts)`. -/
def py_join (sep : String) : List String → String
  | [] => ""
  | [s] => s
  | s :: rest => s ++ sep ++ py_join sep rest

/-- Python `s.endswith(suffix)`, at the character level. -/
def pyEndsWith (s sfx : String) : Bool :=
  s.data.drop (s.data.length - sfx.data.length) == sfx.data

/-- Python `s[:-n]` (for n > 0): drop the last n characters. -/
def pyDropLast (s : String) (n : Nat) : String :=
  ⟨s.data.take (s.data.length - n)⟩

/-- A chat message: role and content, as passed to the completion endpoint. -/
structure ChatMsg where
  role : String
  content : String
deriving DecidableEq

/-- A completion request: the model identifier and the ordered messages. -/
structure ChatRequest where
  model : String
  messages : List ChatMsg
deriving DecidableEq

/-- The completion backend. `none` models the network call raising; `some raw`
models success with first-choice message content `raw`. -/
abbrev Backend := ChatRequest → Option String

/-- All five pipeline steps call `client.chat.completions.create` with model
"gpt-4", one system message and one user message. -/
def chatRequest (sys user : String) : ChatRequest :=
  { model := "gpt-4", messages := [⟨"system", sys⟩, ⟨"user", user⟩] }

/-- Request built by `ContractProcessor.generate_template` (autocon.py:57-68). -/
def generate_template_request (template_type : String) : ChatRequest :=
  chatRequest "You are a legal expert specializing in contract generation."
    ("Generate a " ++ template_type ++
      " contract template. Include placeholders for specific details.")

/-- Embeds `ContractProcessor.generate_template` (autocon.py:57-72): on
success the trimmed first-choice content, on any exception the empty string. -/
def generate_template (B : Backend) (template_type : String) : String :=
  match B (generate_template_request template_type) with
  | some r => py_strip r
  | none => ""

/-- Request built by `ContractProcessor.classify_template` (autocon.py:100-115). -/
def classify_template_request (text : String) : ChatRequest :=
  chatRequest "You are a legal expert specializing in contract classification."
    ("Based on the following business proposal, what type of contract template " ++
      "would be most appropriate? Please respond with only the contract type " ++
      "name, nothing else.\n\n" ++ text ++ "\n\nContract type:")

/-- Embeds `ContractProcessor.classify_template` (autocon.py:100-119): on
success the trimmed, lower-cased first-choice content; on any exception the
string "default". -/
def classify_template (B : Backend) (text : String) : String :=
  match B (classify_template_request text) with
  | some r => py_lower (py_strip r)
  | none => "default"

/-- Request built by `ContractProcessor.populate_template` (autocon.py:121-137). -/
def populate_template_request (template proposal : String) : ChatRequest :=
  chatRequest "You are a legal expert specializing in contract generation."
    ("Given the following contract template and business proposal, please fill " ++
      "in the template with relevant information from the proposal:\n\n" ++
      "Template:\n" ++ template ++ "\n\nProposal:\n" ++ proposal ++
      "\n\nFilled template:")

/-- Embeds `ContractProcessor.populate_template` (autocon.py:121-141). -/
def populate_template (B : Backend) (template proposal : String) : String :=
  match B (populate_template_request template proposal) with
  | some r => py_strip r
  | none => ""

/-- Request built by `ContractProcessor.risk_compliance_check` (autocon.py:143-159). -/
def risk_compliance_check_request (contract : String) : ChatRequest :=
  chatRequest "You are a legal expert specializing in risk assessment and compliance."
    ("Analyze the following contract for potential risks and compliance " ++
      "issues. Provide a detailed report:\n\n" ++ contract ++
      "\n\nRisk and Compliance Report:")

/-- Embeds `ContractProcessor.risk_compliance_check` (autocon.py:143-163). -/
def risk_compliance_check (B : Backend) (contract : String) : String :=
  match B (risk_compliance_check_request contract) with
  | some r => py_strip r
  | none => ""

/-- Request built by `ContractProcessor.generate_final_contract` (autocon.py:165-180). -/
def generate_final_contract_request (contract : String) : ChatRequest :=
  chatRequest "You are a legal expert specializing in contract finalization."
    ("Review and finalize the following contract, ensuring consistency " ++
      "and compliance:\n\n" ++ contract ++ "\n\nFinal Contract:")

/-- Embeds `ContractProcessor.generate_final_contract` (autocon.py:165-184). -/
def generate_final_contract (B : Backend) (contract : String) : String :=
  match B (generate_final_contract_request contract) with
  | some r => py_strip r
  | none => ""

/-- Embeds `process_proposal` (autocon.py:235-249), minus the wall-clock
timing.  `template_cache` is the module-level dict that is in scope at the
call site; the function body never reads it, and the embedding makes that
checkable by passing it explicitly.  Returns (template_type,
populated_contract, risk_report). -/
def process_proposal (B : Backend) (template_cache : List (String × String))
    (proposal : String) : String × String × String :=
  let template_type := classify_template B proposal
  let template := generate_template B template_type
  let populated_contract := populate_template B template proposal
  let risk_report := risk_compliance_check B populated_contract
  (template_type, populated_contract, risk_report)

/-- A directory listing entry or a template-cache entry: name and text. -/
abbrev Entry := String × String

/-- Python dict assignment `d[k] = v` on an insertion-ordered dict: if the key
is present, replace its value in place; otherwise append the pair. -/
def dictInsert (d : List Entry) (k v : String) : List Entry :=
  if d.any (fun p => p.1 == k) then
    d.map (fun p => if p.1 == k then (k, v) else p)
  else d ++ [(k, v)]

/-- What one call of `load_templates` did: the resulting cache, how many LLM
completion calls it made, which files it wrote (name, content), and whether it
created the template directory. -/
structure LoadResult where
  template_cache : List Entry
  llm_calls : Nat
  writes : List Entry
  dir_created : Bool
deriving DecidableEq

/-- Embeds `ContractProcessor.load_templates` (autocon.py:37-55).  `dir` is
the state of the template directory (`none` = absent, `some files` = listing);
`cache` is the module-level `template_cache` dict the function mutates.  When
the directory is absent it is created, a "default" template is synthesized via
one `generate_template` call and written to default.txt; otherwise every
`.txt` file is read into the cache under its filename minus the extension. -/
def load_templates (B : Backend) (dir : Option (List Entry)) (cache : List Entry) :
    LoadResult :=
  match dir with
  | none =>
    let default_template := generate_template B "default"
    { template_cache := dictInsert cache "default" default_template,
      llm_calls := 1,
      writes := [("default.txt", default_template)],
      dir_created := true }
  | some files =>
    { template_cache :=
        files.foldl
          (fun c p =>
            if pyEndsWith p.1 ".txt" then dictInsert c (pyDropLast p.1 4) p.2 else c)
          cache,
      llm_calls := 0,
      writes := [],
      dir_created := false }

/-- Embeds the module-level template-directory setup (autocon.py:27-29), run
at import time before any function of the module: if the directory does not
exist it is created (empty). -/
def module_init (dir : Option (List Entry)) : Option (List Entry) :=
  match dir with
  | none => some []
  | some files => some files

/-- An uploaded file as the reader functions observe it: the declared media
type, the PDF parse outcome (`none` = the PDF library raised, `some pages` =
per-page extracted texts), and the UTF-8 decode outcome of its raw bytes
(`none` = decode raised). -/
structure UploadedFile where
  type : String
  pdf_pages : Option (List String)
  decoded : Option String

/-- Embeds `ContractProcessor.extract_text_from_pdf` (autocon.py:74-85): join
the per-page texts with newlines; on any parse exception return "". -/
def extract_text_from_pdf (f : UploadedFile) : String :=
  match f.pdf_pages with
  | some pages => py_join "\n" pages
  | none => ""

/-- Embeds `ContractProcessor.read_file_content` (autocon.py:87-97): dispatch
on the declared media type; PDF goes through `extract_text_from_pdf`, anything
else is the UTF-8 decode of the raw bytes; any exception yields "". -/
def read_file_content (f : UploadedFile) : String :=
  if f.type == "application/pdf" then extract_text_from_pdf f
  else
    match f.decoded with
    | some s => s
    | none => ""

/-- A block of a docx document as built by `save_as_word`. -/
inductive DocBlock where
  | heading (text : String) (level : Nat)
  | paragraph (text : String)
deriving DecidableEq

/-- Embeds the document construction of `ContractProcessor.save_as_word`
(autocon.py:190-193): `Document()` then `add_heading` and two
`add_paragraph` calls, each appending one block. -/
def build_word_doc (contract timestamp : String) : List DocBlock :=
  let doc : List DocBlock := []
  let doc := doc ++ [DocBlock.heading "Legal Contract" 0]
  let doc := doc ++ [DocBlock.paragraph ("Generated on: " ++ timestamp)]
  let doc := doc ++ [DocBlock.paragraph contract]
  doc

/-- Embeds `ContractProcessor.save_as_word` (autocon.py:186-199).
`timestamp` is the formatted `datetime.now()`, `tmp_name` the fresh temporary
file name, and `ok` whether the document build and save succeeded (any
exception gives `ok = false`).  Returns the returned path and the document
written to disk, if any. -/
def save_as_word (contract timestamp tmp_name : String) (ok : Bool) :
    String × Option (List DocBlock) :=
  if ok then (tmp_name, some (build_word_doc contract timestamp))
  else ("", none)

/-- One reportlab canvas operation recorded by `save_as_pdf`. -/
inductive PdfOp where
  | setFont (font : String) (size : Nat)
  | drawString (x y : Int) (text : String)
  | showPage
deriving DecidableEq

/-- Page height of `reportlab.lib.pagesizes.letter` in points. -/
def letter_height : Int := 792

/-- Embeds the body loop of `save_as_pdf` (autocon.py:222-227): for each
line, if the cursor is below the 40pt margin start a new page and reset the
cursor to `height - 40`; draw the line at x = 40 and move the cursor down
15pt. -/
def draw_contract_lines : Int → List String → List PdfOp
  | _, [] => []
  | y, line :: rest =>
    if y < 40 then
      PdfOp.showPage :: PdfOp.drawString 40 (letter_height - 40) line ::
        draw_contract_lines (letter_height - 40 - 15) rest
    else
      PdfOp.drawString 40 y line :: draw_contract_lines (y - 15) rest

/-- Embeds the canvas operations of `ContractProcessor.save_as_pdf`
(autocon.py:205-229): title at `height - 40`, timestamp 30pt below, then the
contract text split on newlines drawn by `draw_contract_lines` starting
another 30pt below. -/
def save_as_pdf_ops (contract timestamp : String) : List PdfOp :=
  [PdfOp.setFont "Helvetica-Bold" 16,
   PdfOp.drawString 40 (letter_height - 40) "Legal Contract",
   PdfOp.setFont "Helvetica" 10,
   PdfOp.drawString 40 (letter_height - 40 - 30) ("Generated on: " ++ timestamp),
   PdfOp.setFont "Helvetica" 12] ++
  draw_contract_lines (letter_height - 40 - 30 - 30) (py_split_nl contract)

/-- Embeds `ContractProcessor.save_as_pdf` (autocon.py:201-233) as a whole:
on success return the temporary file name and the recorded canvas operations;
on any exception return "" and no operations. -/
def save_as_pdf (contract timestamp tmp_name : String) (ok : Bool) :
    String × List PdfOp :=
  if ok then (tmp_name, save_as_pdf_ops contract timestamp)
  else ("", [])

/-- The texts passed to `drawString`, in drawing order. -/
def drawn_texts (ops : List PdfOp) : List String :=
  ops.filterMap fun op =>
    match op with
    | PdfOp.drawString _ _ s => some s
    | _ => none

/-- True when an operation respects the bottom margin: every `drawString`
happens at `y ≥ 40`. -/
def pdf_op_in_margin : PdfOp → Bool
  | PdfOp.drawString _ y _ => 40 ≤ y
  | _ => true

/-- The `.txt` files of a directory listing, as (stem, content) pairs: what a
populated-directory `load_templates` run is expected to cache. -/
def txt_entries (files : List Entry) : List Entry :=
  files.filterMap fun p =>
    if pyEndsWith p.1 ".txt" then some (pyDropLast p.1 4, p.2) else none

/-- The cache keys (filename stems) contributed by the `.txt` files of a
directory listing. -/
def txt_stem_keys (files : List Entry) : List String :=
  files.filterMap fun p =>
    if pyEndsWith p.1 ".txt" then some (pyDropLast p.1 4) else none

/-- C2: `process_proposal` always obtains the template by a fresh
`generate_template` call on the classified contract-type label; it never
consults the loaded template cache, so its output is independent of the cache
contents. -/
theorem process_proposal_regenerates_template (B : Backend)
    (template_cache : List Entry) (proposal : String) :
    process_proposal B template_cache proposal =
      (classify_template B proposal,
       populate_template B (generate_template B (classify_template B proposal)) proposal,
       risk_compliance_check B
         (populate_template B (generate_template B (classify_template B proposal)) proposal)) ∧
    process_proposal B template_cache proposal = process_proposal B [] proposal :=
  ⟨rfl, rfl⟩

/-- C3: against a backend whose completion call raises, classification
returns "default" and the four other pipeline steps return the empty string;
none of them propagates the failure. -/
theorem pipeline_fails_open (B : Backend) (hB : ∀ req, B req = none)
    (text template_type template proposal contract : String) :
    classify_template B text = "default" ∧
    generate_template B template_type = "" ∧
    populate_template B template proposal = "" ∧
    risk_compliance_check B contract = "" ∧
    generate_final_contract B contract = "" := by
  refine ⟨?_, ?_, ?_, ?_, ?_⟩ <;>
    simp [classify_template, generate_template, populate_template,
      risk_compliance_check, generate_final_contract, hB]

/-- Witness for C3 at the always-raising backend and concrete step inputs. -/
theorem pipeline_fails_open_witness :
    classify_template (fun _ => none) "proposal text" = "default" ∧
    generate_template (fun _ => none) "lease" = "" ∧
    populate_template (fun _ => none) "template text" "proposal text" = "" ∧
    risk_compliance_check (fun _ => none) "contract text" = "" ∧
    generate_final_contract (fun _ => none) "contract text" = "" :=
  pipeline_fails_open (fun _ => none) (fun _ => rfl) "proposal text" "lease"
    "template text" "proposal text" "contract text"

/-- C7: on a successful backend call every pipeline step returns the first
choice content stripped of surrounding whitespace, and classification
additionally lower-cases it. -/
theorem pipeline_success_trimmed (B : Backend)
    (text template_type template proposal contract r1 r2 r3 r4 r5 : String)
    (h1 : B (classify_template_request text) = some r1)
    (h2 : B (generate_template_request template_type) = some r2)
    (h3 : B (populate_template_request template proposal) = some r3)
    (h4 : B (risk_compliance_check_request contract) = some r4)
    (h5 : B (generate_final_contract_request contract) = some r5) :
    classify_template B text = py_lower (py_strip r1) ∧
    generate_template B template_type = py_strip r2 ∧
    populate_template B template proposal = py_strip r3 ∧
    risk_compliance_check B contract = py_strip r4 ∧
    generate_final_contract B contract = py_strip r5 := by
  refine ⟨?_, ?_, ?_, ?_, ?_⟩ <;>
    simp [classify_template, generate_template, populate_template,
      risk_compliance_check, generate_final_contract, h1, h2, h3, h4, h5]

/-- Witness for C7 at a backend that always answers " Lease Agreement ". -/
theorem pipeline_success_trimmed_witness :
    classify_template (fun _ => some " Lease Agreement ") "p" = "lease agreement" ∧
    generate_template (fun _ => some " Lease Agreement ") "t" = "Lease Agreement" ∧
    populate_template (fun _ => some " Lease Agreement ") "tm" "p" = "Lease Agreement" ∧
    risk_compliance_check (fun _ => some " Lease Agreement ") "c" = "Lease Agreement" ∧
    generate_final_contract (fun _ => some " Lease Agreement ") "c" = "Lease Agreement" := by
  obtain ⟨h1, h2, h3, h4, h5⟩ :=
    pipeline_success_trimmed (fun _ => some " Lease Agreement ") "p" "t" "tm" "p" "c"
      " Lease Agreement " " Lease Agreement " " Lease Agreement " " Lease Agreement "
      " Lease Agreement " rfl rfl rfl rfl rfl
  exact ⟨h1.trans (by decide), h2.trans (by decide), h3.trans (by decide),
    h4.trans (by decide), h5.trans (by decide)⟩

/-- C9: every pipeline step is deterministic given a mocked backend — two
backends that give the same canned response to the step request produce the
same output for the same inputs. -/
theorem pipeline_deterministic (B1 B2 : Backend)
    (text template_type template proposal contract : String)
    (h1 : B1 (classify_template_request text) = B2 (classify_template_request text))
    (h2 : B1 (generate_template_request template_type) =
          B2 (generate_template_request template_type))
    (h3 : B1 (populate_template_request template proposal) =
          B2 (populate_template_request template proposal))
    (h4 : B1 (risk_compliance_check_request contract) =
          B2 (risk_compliance_check_request contract))
    (h5 : B1 (generate_final_contract_request contract) =
          B2 (generate_final_contract_request contract)) :
    classify_template B1 text = classify_template B2 text ∧
    generate_template B1 template_type = generate_template B2 template_type ∧
    populate_template B1 template proposal = populate_template B2 template proposal ∧
    risk_compliance_check B1 contract = risk_compliance_check B2 contract ∧
    generate_final_contract B1 contract = generate_final_contract B2 contract := by
  refine ⟨?_, ?_, ?_, ?_, ?_⟩ <;>
    simp [classify_template, generate_template, populate_template,
      risk_compliance_check, generate_final_contract, h1, h2, h3, h4, h5]

/-- Witness for C9 at two syntactically different mocked backends that agree
on every request. -/
theorem pipeline_deterministic_witness :
    classify_template (fun _ => some " Lease ") "p" =
      classify_template (fun req => if req.model == "gpt-4" then some " Lease " else none) "p" ∧
    populate_template (fun _ => some " Lease ") "tm" "p" =
      populate_template (fun req => if req.model == "gpt-4" then some " Lease " else none) "tm" "p" := by
  obtain ⟨h1, _, h3, _, _⟩ :=
    pipeline_deterministic (fun _ => some " Lease ")
      (fun req => if req.model == "gpt-4" then some " Lease " else none)
      "p" "t" "tm" "p" "c" (by decide) (by decide) (by decide) (by decide) (by decide)
  exact ⟨h1, h3⟩

/-- C8: `save_as_word` builds exactly the heading "Legal Contract", one
generated-timestamp paragraph and one body paragraph equal to the input, and
returns the temporary file name; on failure it returns the empty string and
writes nothing. -/
theorem save_as_word_spec (contract timestamp tmp_name : String) :
    save_as_word contract timestamp tmp_name true =
      (tmp_name, some [DocBlock.heading "Legal Contract" 0,
                       DocBlock.paragraph ("Generated on: " ++ timestamp),
                       DocBlock.paragraph contract]) ∧
    save_as_word contract timestamp tmp_name false = ("", none) :=
  ⟨rfl, rfl⟩

/-- C10: after the module-level directory setup has run, `load_templates`
always takes the read branch: it makes no LLM call, writes no file and does
not create the directory, whatever the directory contents and cache. -/
theorem load_templates_after_module_init (B : Backend)
    (dir : Option (List Entry)) (cache : List Entry) :
    (load_templates B (module_init dir) cache).llm_calls = 0 ∧
    (load_templates B (module_init dir) cache).writes = [] ∧
    (load_templates B (module_init dir) cache).dir_created = false := by
  cases dir <;> exact ⟨rfl, rfl, rfl⟩

/-- C1 counterexample: on an existing but empty template directory,
`load_templates` returns an empty mapping and makes no LLM call, so it does
not return exactly one "default" entry as the claim states. -/
theorem load_templates_empty_dir_counterexample :
    ¬ ((load_templates (fun _ => some "lease template") (some []) []).template_cache.length = 1 ∧
       (load_templates (fun _ => some "lease template") (some []) []).llm_calls = 1) := by
  decide

/-- C1 amended: only for an absent template directory does `load_templates`
return exactly one entry named "default", synthesized by one LLM call and
persisted as default.txt; on an existing empty directory it returns an empty
mapping with no LLM call and no write. -/
theorem load_templates_default_amended (B : Backend) :
    (load_templates B none []).template_cache =
      [("default", generate_template B "default")] ∧
    (load_templates B none []).llm_calls = 1 ∧
    (load_templates B none []).writes =
      [("default.txt", generate_template B "default")] ∧
    (load_templates B none []).dir_created = true ∧
    (load_templates B (some []) []).template_cache = [] ∧
    (load_templates B (some []) []).llm_calls = 0 ∧
    (load_templates B (some []) []).writes = [] := by
  exact ⟨rfl, rfl, rfl, rfl, rfl, rfl, rfl⟩

/-- C6: `read_file_content` dispatches on the declared media type — PDF gives
the per-page texts joined with newlines, anything else the UTF-8 decode of
the bytes — and any parse or decode failure yields the empty string. -/
theorem read_file_content_dispatch (pages : List String)
    (s ty : String) (dec : Option String) (pdfp : Option (List String))
    (hty : ty ≠ "application/pdf") :
    read_file_content ⟨"application/pdf", some pages, dec⟩ = py_join "\n" pages ∧
    read_file_content ⟨"application/pdf", none, dec⟩ = "" ∧
    read_file_content ⟨ty, pdfp, some s⟩ = s ∧
    read_file_content ⟨ty, pdfp, none⟩ = "" := by
  refine ⟨rfl, rfl, ?_, ?_⟩ <;> simp [read_file_content, hty]

/-- Witness for C6: a two-page PDF upload and a plain-text upload. -/
theorem read_file_content_dispatch_witness :
    read_file_content ⟨"application/pdf", some ["page one", "page two"], none⟩ =
      "page one\npage two" ∧
    read_file_content ⟨"text/plain", none, some "hello"⟩ = "hello" := by
  have h := read_file_content_dispatch ["page one", "page two"] "hello" "text/plain"
    none none (by decide)
  exact ⟨h.1.trans (by decide), h.2.2.1⟩

/-- The body loop draws exactly its input lines, in order, whatever the
starting cursor height. -/
theorem draw_contract_lines_texts (lines : List String) (y : Int) :
    drawn_texts (draw_contract_lines y lines) = lines := by
  induction lines generalizing y with
  | nil => rfl
  | cons line rest ih =>
    by_cases h : y < 40 <;>
      simp [draw_contract_lines, h, drawn_texts, List.filterMap_cons] <;>
      simpa [drawn_texts] using ih _

/-- The body loop never draws below the 40pt bottom margin. -/
theorem draw_contract_lines_in_margin (lines : List String) (y : Int) :
    (draw_contract_lines y lines).all pdf_op_in_margin = true := by
  induction lines generalizing y with
  | nil => rfl
  | cons line rest ih =>
    by_cases h : y < 40
    · simp [draw_contract_lines, h, pdf_op_in_margin, ih, letter_height]
    · simp [draw_contract_lines, h, pdf_op_in_margin, ih]
      omega

/-- C5: the strings drawn by `save_as_pdf` are the title, the timestamp line,
then every newline-separated line of the contract verbatim and in order, and
every `drawString` happens at or above the fixed 40pt bottom margin. -/
theorem save_as_pdf_draws_lines (contract timestamp : String) :
    drawn_texts (save_as_pdf_ops contract timestamp) =
      "Legal Contract" :: ("Generated on: " ++ timestamp) :: py_split_nl contract ∧
    (save_as_pdf_ops contract timestamp).all pdf_op_in_margin = true := by
  constructor
  · have h := draw_contract_lines_texts (py_split_nl contract) (letter_height - 40 - 30 - 30)
    simp only [drawn_texts] at h ⊢
    simp [save_as_pdf_ops, List.filterMap_append, h]
  · simp [save_as_pdf_ops, pdf_op_in_margin, letter_height,
      draw_contract_lines_in_margin]

/-- A filename that passes the `.txt` check decomposes as its stem followed by
the four suffix characters. -/
theorem pyEndsWith_txt_drop (s : String) (h : pyEndsWith s ".txt" = true) :
    s.data.drop (s.data.length - 4) = (".txt").data := by
  simpa [pyEndsWith] using h

/-- Dropping the `.txt` suffix is injective on filenames that carry it. -/
theorem pyDropLast_txt_inj (s1 s2 : String) (h1 : pyEndsWith s1 ".txt" = true)
    (h2 : pyEndsWith s2 ".txt" = true) (h : pyDropLast s1 4 = pyDropLast s2 4) :
    s1 = s2 := by
  have d1 := pyEndsWith_txt_drop s1 h1
  have d2 := pyEndsWith_txt_drop s2 h2
  have ht : s1.data.take (s1.data.length - 4) = s2.data.take (s2.data.length - 4) := by
    simpa [pyDropLast] using congrArg String.data h
  have hdata : s1.data = s2.data := by
    calc s1.data
        = s1.data.take (s1.data.length - 4) ++ s1.data.drop (s1.data.length - 4) :=
          (List.take_append_drop _ _).symm
      _ = s2.data.take (s2.data.length - 4) ++ s2.data.drop (s2.data.length - 4) := by
          rw [ht, d1, d2]
      _ = s2.data := List.take_append_drop _ _
  cases s1; cases s2; exact congrArg String.mk hdata

/-- Distinct filenames in a directory give distinct cache keys. -/
theorem txt_stem_keys_nodup (files : List Entry)
    (hnd : (files.map Prod.fst).Nodup) : (txt_stem_keys files).Nodup := by
  have heq : txt_stem_keys files =
      (files.map Prod.fst).filterMap
        (fun n => if pyEndsWith n ".txt" then some (pyDropLast n 4) else none) := by
    rw [List.filterMap_map]
    rfl
  rw [heq]
  apply List.Nodup.filterMap ?_ hnd
  intro a a' b hb hb'
  by_cases ha : pyEndsWith a ".txt" = true
  · by_cases ha' : pyEndsWith a' ".txt" = true
    · simp [ha, ha'] at hb hb'
      exact pyDropLast_txt_inj a a' ha ha' (hb.trans hb'.symm)
    · simp [ha'] at hb'
  · simp [ha] at hb

/-- Python dict assignment with a fresh key appends the pair. -/
theorem dictInsert_of_fresh (d : List Entry) (k v : String)
    (h : ∀ q ∈ d, q.1 ≠ k) : dictInsert d k v = d ++ [(k, v)] := by
  have : d.any (fun p => p.1 == k) = false := by
    simp only [List.any_eq_false]
    intro q hq
    simpa using h q hq
  simp [dictInsert, this]

/-- The populated-directory loop of `load_templates` appends one cache entry
per `.txt` file, provided the incoming cache keys are fresh and the stems are
distinct. -/
theorem load_fold_eq_append (files : List Entry) :
    ∀ cache : List Entry,
    (txt_stem_keys files).Nodup →
    (∀ p ∈ files, pyEndsWith p.1 ".txt" = true →
      ∀ q ∈ cache, q.1 ≠ pyDropLast p.1 4) →
    files.foldl
      (fun c p =>
        if pyEndsWith p.1 ".txt" then dictInsert c (pyDropLast p.1 4) p.2 else c)
      cache = cache ++ txt_entries files := by
  induction files with
  | nil => intro cache _ _; simp [txt_entries]
  | cons p rest ih =>
    intro cache hnd hfresh
    by_cases hp : pyEndsWith p.1 ".txt" = true
    · have hkeys : txt_stem_keys (p :: rest) = pyDropLast p.1 4 :: txt_stem_keys rest := by
        simp [txt_stem_keys, List.filterMap_cons, hp]
      rw [hkeys] at hnd
      have hins : dictInsert cache (pyDropLast p.1 4) p.2 =
          cache ++ [(pyDropLast p.1 4, p.2)] :=
        dictInsert_of_fresh cache _ p.2
          (hfresh p (List.mem_cons_self p rest) hp)
      have hfresh' : ∀ q ∈ rest, pyEndsWith q.1 ".txt" = true →
          ∀ r ∈ cache ++ [(pyDropLast p.1 4, p.2)], r.1 ≠ pyDropLast q.1 4 := by
        intro q hq hqe r hr
        rcases List.mem_append.mp hr with hr | hr
        · exact hfresh q (List.mem_cons_of_mem p hq) hqe r hr
        · have hr' : r = (pyDropLast p.1 4, p.2) := by simpa using hr
          subst hr'
          have hmem : pyDropLast q.1 4 ∈ txt_stem_keys rest := by
            simp only [txt_stem_keys, List.mem_filterMap]
            exact ⟨q, hq, by simp [hqe]⟩
          have hne := (List.nodup_cons.mp hnd).1
          intro hcontra
          have hcontra' : pyDropLast p.1 4 = pyDropLast q.1 4 := hcontra
          exact hne (hcontra'.symm ▸ hmem)
      have := ih (cache ++ [(pyDropLast p.1 4, p.2)]) (List.nodup_cons.mp hnd).2 hfresh'
      simp only [List.foldl_cons, hp, if_true]
      rw [hins, this]
      simp [txt_entries, List.filterMap_cons, hp]
    · have hkeys : txt_stem_keys (p :: rest) = txt_stem_keys rest := by
        simp [txt_stem_keys, List.filterMap_cons, hp]
      rw [hkeys] at hnd
      have hfresh' : ∀ q ∈ rest, pyEndsWith q.1 ".txt" = true →
          ∀ r ∈ cache, r.1 ≠ pyDropLast q.1 4 := fun q hq =>
        hfresh q (List.mem_cons_of_mem p hq)
      have := ih cache hnd hfresh'
      rw [List.foldl_cons, if_neg hp, this]
      simp [txt_entries, List.filterMap_cons, hp]

/-- C4: on an existing directory with distinct filenames, `load_templates`
starting from the empty cache returns exactly one entry per `.txt` file, keyed
by the filename minus the extension and valued by the file content; files
without the `.txt` extension contribute nothing. -/
theorem load_templates_populated_dir (B : Backend) (files : List Entry)
    (hnd : (files.map Prod.fst).Nodup) :
    (load_templates B (some files) []).template_cache = txt_entries files := by
  have h1 := txt_stem_keys_nodup files hnd
  have h2 : ∀ p ∈ files, pyEndsWith p.1 ".txt" = true →
      ∀ q ∈ ([] : List Entry), q.1 ≠ pyDropLast p.1 4 := by
    intro p _ _ q hq
    exact absurd hq (List.not_mem_nil q)
  simpa [load_templates] using load_fold_eq_append files [] h1 h2

/-- Witness for C4: a directory with two `.txt` files and one other file. -/
theorem load_templates_populated_dir_witness :
    (load_templates (fun _ => some "unused")
        (some [("nda.txt", "NDA BODY"), ("readme.md", "NOTES"),
               ("lease.txt", "LEASE BODY")]) []).template_cache =
      [("nda", "NDA BODY"), ("lease", "LEASE BODY")] := by
  have h := load_templates_populated_dir (fun _ => some "unused")
    [("nda.txt", "NDA BODY"), ("readme.md", "NOTES"), ("lease.txt", "LEASE BODY")]
    (by decide)
  exact h.trans (by decide)
